import Mathlib

/-!
# Verification of the TrustLine entity and store (src/ledger/TrustFrame.cpp)

A shallow embedding of the trust-line entity model and its persistence
layer.  Machine integers are modelled as `Int` (int64 fields) and `Nat`
(the uint32 `flags` word), with two's-complement wraparound made explicit
where the C++ arithmetic can overflow.  The SQL table is modelled as an
association list from the base58 key triple to the stored row, and the
fallible store operations return `Except StoreError`.

The external identity codec (base58 account encoding, currency-code
packing) is excluded by the design as a pure, stateless, round-trip-exact
collaborator; it is modelled by injective identity maps on `Nat`.
-/

namespace Stellar

/-- Account identifiers, abstracted to `Nat` (opaque 256-bit values in the
source; only equality matters to this component). -/
abbrev AccountID := Nat

/-- The XDR currency discriminant: `CURRENCY_TYPE_NATIVE` or
`CURRENCY_TYPE_ALPHANUM`. -/
inductive CurrencyType where
  | native
  | alphaNum
deriving DecidableEq, Repr

/-- The XDR `Currency` union: a discriminant plus the alphaNum arm's
`currencyCode` (abstracted 4-byte code) and `issuer`. -/
structure Currency where
  type : CurrencyType
  currencyCode : Nat
  issuer : AccountID
deriving DecidableEq, Repr

/-- INT64_MAX. -/
def INT64_MAX : Int := 9223372036854775807

/-- Wrap a mathematical integer into the int64 range, the two's-complement
semantics of the C++ `int64_t` addition in `addBalance`. -/
def int64Wrap (x : Int) : Int :=
  (x + 9223372036854775808) % 18446744073709551616 - 9223372036854775808

/-- The XDR `TrustLineEntry`: holder account, currency (with issuer),
limit, balance (int64), flags (uint32). -/
structure TrustLineEntry where
  accountID : AccountID
  currency : Currency
  limit : Int
  balance : Int
  flags : Nat
deriving DecidableEq, Repr

/-- `AUTHORIZED_FLAG`: bit 0 of the flags word marks authorization
(`TrustLineFlags` in the protocol definition). -/
def AUTHORIZED_FLAG : Nat := 1

/-- `TrustFrame`: the in-memory entity, a `TrustLineEntry` plus the
`mIsIssuer` pseudo-entity marker. -/
structure TrustFrame where
  mTrustLine : TrustLineEntry
  mIsIssuer : Bool
deriving DecidableEq, Repr

/-- `TrustFrame::isAuthorized`: `(flags & AUTHORIZED_FLAG) != 0`. -/
def TrustFrame.isAuthorized (f : TrustFrame) : Bool :=
  f.mTrustLine.flags &&& AUTHORIZED_FLAG ≠ 0

/-- `TrustFrame::setAuthorized`: sets (`flags |= AUTHORIZED_FLAG`) or
clears (`flags &= ~AUTHORIZED_FLAG`, i.e. `& 0xFFFFFFFE` on the uint32
flags word) the authorization bit. -/
def TrustFrame.setAuthorized (f : TrustFrame) (authorized : Bool) : TrustFrame :=
  if authorized then
    { f with mTrustLine :=
      { f.mTrustLine with flags := f.mTrustLine.flags ||| AUTHORIZED_FLAG } }
  else
    { f with mTrustLine :=
      { f.mTrustLine with flags := f.mTrustLine.flags &&& 4294967294 } }

/-- `TrustFrame::isValid`: non-native currency, `balance >= 0`,
`balance <= limit`. -/
def TrustFrame.isValid (f : TrustFrame) : Bool :=
  f.mTrustLine.currency.type ≠ CurrencyType.native
    && f.mTrustLine.balance ≥ 0
    && f.mTrustLine.balance ≤ f.mTrustLine.limit

/-- `TrustFrame::addBalance`: returns the C++ boolean result together with
the frame after the call.  The two guard expressions `delta + balance` and
the assignment `balance += delta` are int64 additions, hence wrapped. -/
def TrustFrame.addBalance (f : TrustFrame) (delta : Int) : Bool × TrustFrame :=
  if f.mIsIssuer then (true, f)
  else if delta = 0 then (true, f)
  else if !f.isAuthorized then (false, f)
  else if f.mTrustLine.limit < int64Wrap (delta + f.mTrustLine.balance) then (false, f)
  else if int64Wrap (delta + f.mTrustLine.balance) < 0 then (false, f)
  else (true, { f with mTrustLine :=
    { f.mTrustLine with balance := int64Wrap (f.mTrustLine.balance + delta) } })

/-- `TrustFrame::getMaxAmountReceive`: INT64_MAX for the issuer
pseudo-entity, remaining headroom when authorized, 0 otherwise. -/
def TrustFrame.getMaxAmountReceive (f : TrustFrame) : Int :=
  if f.mIsIssuer then INT64_MAX
  else if f.isAuthorized then f.mTrustLine.limit - f.mTrustLine.balance
  else 0

/-! ## The store layer -/

/-- Modelled from the spec: `toBase58Check(VER_ACCOUNT_ID, ·)` lives in the
external identity codec (`crypto/Base58`, outside this fragment), specified
as pure, stateless and round-trip-exact; it is modelled as the injective
identity map on abstract account identifiers. -/
def toBase58Check (a : AccountID) : Nat := a

/-- Modelled from the spec: `fromBase58Check256`, the codec's inverse of
`toBase58Check` (round-trip-exact). -/
def fromBase58Check256 (s : Nat) : AccountID := s

/-- Modelled from the spec: `currencyCodeToStr`, the external 4-character
currency-code packing, round-trip-exact, modelled as identity. -/
def currencyCodeToStr (c : Nat) : Nat := c

/-- Modelled from the spec: `strToCurrencyCode`, inverse of
`currencyCodeToStr`. -/
def strToCurrencyCode (s : Nat) : Nat := s

/-- The `LedgerKey` trust-line arm: `(accountID, currency)`; the stored key
triple is derived from it by `getKeyFields`. -/
structure TrustLineKey where
  accountID : AccountID
  currency : Currency
deriving DecidableEq, Repr

/-- Modelled from the spec: `EntryFrame::getKey` (outside this fragment)
builds the trust-line ledger key from the entry's own holder and currency
("the triple (holder, issuer, currency) is globally unique"). -/
def TrustFrame.getKey (f : TrustFrame) : TrustLineKey :=
  ⟨f.mTrustLine.accountID, f.mTrustLine.currency⟩

/-- Errors surfaced by the store operations: the `assert(isValid())`
precondition failures, the `runtime_error` thrown by `getKeyFields` for an
issuer's own trustline, the `runtime_error("Could not update data in SQL")`
thrown when a mutation affects a row count other than one, and the SQL
primary-key violation an INSERT of a duplicate key raises. -/
inductive StoreError where
  | assertFailed
  | usageError
  | consistencyError
  | duplicateKey
deriving DecidableEq, Repr

/-- A stored `TrustLines` row (the non-key columns): `tlimit`, `balance`,
`flags`. -/
structure Row where
  tlimit : Int
  balance : Int
  flags : Nat
deriving DecidableEq, Repr

/-- The base58-encoded key triple `(accountID, issuer, AlphaNumCurrency)`
that is the table's primary key. -/
abbrev KeyTriple := Nat × Nat × Nat

/-- The `TrustLines` table, as the ordered list of its rows. -/
abbrev DB := List (KeyTriple × Row)

/-- The change journal (`LedgerDelta`) events this component emits. -/
inductive DeltaEvent where
  | addEntry (f : TrustFrame)
  | modEntry (f : TrustFrame)
  | deleteEntry (k : TrustLineKey)
deriving DecidableEq, Repr

/-- The change journal, as the list of events notified so far. -/
abbrev LedgerDelta := List DeltaEvent

/-- `TrustFrame::getKeyFields`: encodes holder and issuer, throwing a
`runtime_error` when the two encodings coincide (the issuer's own
trustline), then packs the currency code. -/
def getKeyFields (key : TrustLineKey) : Except StoreError KeyTriple :=
  let base58AccountID := toBase58Check key.accountID
  let base58Issuer := toBase58Check key.currency.issuer
  if base58AccountID = base58Issuer then .error .usageError
  else .ok (base58AccountID, base58Issuer, currencyCodeToStr key.currency.currencyCode)

/-- `TrustFrame::exists`: SELECT EXISTS on the key triple.  (`exists` is a
reserved word in Lean, hence the name.) -/
def TrustFrame.existsKey (db : DB) (key : TrustLineKey) : Except StoreError Bool := do
  let k ← getKeyFields key
  .ok (db.any (fun r => r.1 = k))

/-- `TrustFrame::storeDelete` (static overload): DELETE by the key triple,
then notify the journal.  The affected-row count is not inspected. -/
def TrustFrame.storeDelete (delta : LedgerDelta) (db : DB) (key : TrustLineKey) :
    Except StoreError (LedgerDelta × DB) := do
  let k ← getKeyFields key
  let db' := db.filter (fun r => r.1 ≠ k)
  .ok (delta ++ [DeltaEvent.deleteEntry key], db')

/-- `TrustFrame::storeChange`: assert validity, silently skip the issuer
pseudo-entity, UPDATE `(balance, tlimit, flags)` by the key triple, throw
unless exactly one row was affected, then notify the journal. -/
def TrustFrame.storeChange (f : TrustFrame) (delta : LedgerDelta) (db : DB) :
    Except StoreError (LedgerDelta × DB) :=
  if !f.isValid then .error .assertFailed
  else if f.mIsIssuer then .ok (delta, db)
  else do
    let k ← getKeyFields f.getKey
    let affected := (db.filter (fun r => r.1 = k)).length
    let db' := db.map (fun r =>
      if r.1 = k then (r.1, Row.mk f.mTrustLine.limit f.mTrustLine.balance f.mTrustLine.flags)
      else r)
    if affected ≠ 1 then .error .consistencyError
    else .ok (delta ++ [DeltaEvent.modEntry f], db')

/-- `TrustFrame::storeAdd`: assert validity, silently skip the issuer
pseudo-entity, INSERT `(accountID, issuer, AlphaNumCurrency, tlimit, flags)`
— the `balance` column is left to its schema DEFAULT 0 — then notify the
journal.  A duplicate primary key makes the INSERT itself fail. -/
def TrustFrame.storeAdd (f : TrustFrame) (delta : LedgerDelta) (db : DB) :
    Except StoreError (LedgerDelta × DB) :=
  if !f.isValid then .error .assertFailed
  else if f.mIsIssuer then .ok (delta, db)
  else do
    let k ← getKeyFields f.getKey
    if db.any (fun r => r.1 = k) then .error .duplicateKey
    else .ok (delta ++ [DeltaEvent.addEntry f],
              db ++ [(k, Row.mk f.mTrustLine.limit 0 f.mTrustLine.flags)])

/-- `TrustFrame::setAsIssuer`: mark the frame as the issuer pseudo-entity,
set its holder to the issuer, force the authorized bit, and pin balance and
limit to INT64_MAX. -/
def TrustFrame.setAsIssuer (f : TrustFrame) (issuer : Currency) : TrustFrame :=
  { mIsIssuer := true,
    mTrustLine :=
      { accountID := issuer.issuer,
        flags := f.mTrustLine.flags ||| AUTHORIZED_FLAG,
        balance := INT64_MAX,
        currency := issuer,
        limit := INT64_MAX } }

/-- The frame `TrustFrame::loadLines` materialises from one selected row:
a fresh non-issuer frame whose currency is rebuilt as alphaNum from the
stored strings and whose numeric columns are copied in. -/
def rowFrame (k : KeyTriple) (r : Row) : TrustFrame :=
  { mIsIssuer := false,
    mTrustLine :=
      { accountID := fromBase58Check256 k.1,
        currency :=
          { type := CurrencyType.alphaNum,
            issuer := fromBase58Check256 k.2.1,
            currencyCode := strToCurrencyCode k.2.2 },
        limit := r.tlimit,
        balance := r.balance,
        flags := r.flags } }

/-- `TrustFrame::loadLines` (row-iteration core): for each selected row,
build its frame, `assert(curTrustLine.isValid())`, and hand it to the
processor; the frames are returned in selection order. -/
def loadLines : List (KeyTriple × Row) → Except StoreError (List TrustFrame)
  | [] => .ok []
  | (k, r) :: rest =>
    let f := rowFrame k r
    if f.isValid then (loadLines rest).map (fun fs => f :: fs)
    else .error .assertFailed

/-- `TrustFrame::loadTrustLine`: the `holder == issuer` case synthesizes
the pseudo-entity without touching storage; otherwise a point SELECT on the
key triple feeds `loadLines`, whose callback overwrites `retLine` and sets
the result flag for each row delivered. -/
def TrustFrame.loadTrustLine (accountID : AccountID) (currency : Currency)
    (retLine : TrustFrame) (db : DB) : Except StoreError (Bool × TrustFrame) :=
  if accountID = currency.issuer then
    .ok (true, retLine.setAsIssuer currency)
  else
    let accStr := toBase58Check accountID
    let currencyStr := currencyCodeToStr currency.currencyCode
    let issuerStr := toBase58Check currency.issuer
    let rows := db.filter (fun r => r.1 = (accStr, issuerStr, currencyStr))
    do
      let frames ← loadLines rows
      .ok (frames.foldl (fun _ f => (true, f)) (false, retLine))

/-- `TrustFrame::loadLines` (by-holder overload): SELECT all rows of one
holder and collect the frames the iteration core delivers. -/
def TrustFrame.loadLinesFor (accountID : AccountID) (db : DB) :
    Except StoreError (List TrustFrame) :=
  let accStr := toBase58Check accountID
  loadLines (db.filter (fun r => r.1.1 = accStr))

/-- `TrustFrame::hasIssued`: true iff some row of the issuer has
`balance > 0` (the SQL probe `issuer=:id and balance>0 limit 1`). -/
def TrustFrame.hasIssued (issuerID : AccountID) (db : DB) : Bool :=
  db.any (fun r => r.1.2.1 = toBase58Check issuerID && r.2.balance > 0)

/-! ## Bitwise helper lemmas on the flags word -/

/-- Setting the authorized bit makes the flags word odd. -/
theorem lor_one_mod_two (x : Nat) : (x ||| 1) % 2 = 1 := by
  simp

/-- Masking with `~AUTHORIZED_FLAG` (on a 32-bit word, `0xFFFFFFFE`) makes
the flags word even. -/
theorem land_mask_mod_two (x : Nat) : (x &&& 4294967294) % 2 = 0 := by
  have h := Nat.testBit_land x 4294967294 0
  rw [Nat.testBit_zero, Nat.testBit_zero, Nat.testBit_zero] at h
  have h2 : decide ((4294967294 : Nat) % 2 = 1) = false := by decide
  rw [h2, Bool.and_false] at h
  have h3 := of_decide_eq_false h
  omega

/-- Bit `i` of the clear mask `0xFFFFFFFE`: set exactly for `1 ≤ i < 32`. -/
theorem testBit_clear_mask (i : Nat) :
    Nat.testBit 4294967294 i = (decide (1 ≤ i) && decide (i < 32)) := by
  cases i with
  | zero => decide
  | succ n =>
    have h2 : (4294967294 : Nat) / 2 = 2 ^ 31 - 1 := by norm_num
    rw [Nat.testBit_succ, h2, Nat.testBit_two_pow_sub_one, ← Bool.decide_and]
    exact decide_eq_decide.mpr (by omega)

/-- Bit `i` of the constant 1 is clear for `i ≠ 0`. -/
theorem testBit_one_ne_zero {i : Nat} (h : i ≠ 0) : Nat.testBit 1 i = false := by
  cases i with
  | zero => exact absurd rfl h
  | succ n => rw [Nat.testBit_succ]; simp [Nat.zero_testBit]

/-- The point-lookup callback of `loadTrustLine` overwrites `retLine` per
delivered row: folding it either leaves the initial accumulator untouched
or ends on a frame of the delivered list. -/
theorem foldl_overwrite (l : List TrustFrame) (init : Bool × TrustFrame) :
    l.foldl (fun _ f => (true, f)) init = init
    ∨ (l.foldl (fun _ f => (true, f)) init).2 ∈ l := by
  induction l generalizing init with
  | nil => exact Or.inl rfl
  | cons x xs ih =>
    rcases ih (true, x) with h | h
    · right
      simp [List.foldl_cons, h]
    · right
      simp [List.foldl_cons]
      right
      exact h

/-! ## Claim theorems -/

/-- Claim C8: for every trust-line entity, including unauthorized entities
and entities with `balance = limit`, `addBalance 0` returns true and leaves
the entity completely unchanged. -/
theorem addBalance_zero_noop (f : TrustFrame) : f.addBalance 0 = (true, f) := by
  unfold TrustFrame.addBalance
  split <;> simp

/-- Claim C6: for every account ID equal to the currency's issuer,
`loadTrustLine` returns, for every database state alike (hence without any
storage lookup), the synthesized issuer pseudo-entity, whose authorized
flag is set and whose balance and limit both equal INT64_MAX. -/
theorem loadTrustLine_issuer_synthesizes (c : Currency) (retLine : TrustFrame) (db : DB) :
    TrustFrame.loadTrustLine c.issuer c retLine db = .ok (true, retLine.setAsIssuer c)
    ∧ (retLine.setAsIssuer c).isAuthorized = true
    ∧ (retLine.setAsIssuer c).mTrustLine.balance = INT64_MAX
    ∧ (retLine.setAsIssuer c).mTrustLine.limit = INT64_MAX := by
  refine ⟨by simp [TrustFrame.loadTrustLine], ?_, rfl, rfl⟩
  simp only [TrustFrame.isAuthorized, TrustFrame.setAsIssuer, AUTHORIZED_FLAG]
  have h := lor_one_mod_two retLine.mTrustLine.flags
  simp [Nat.and_one_is_mod, h]

/-- Claim C7: for every key whose holder equals the currency's issuer,
`exists` and the static `storeDelete` fail with the usage error thrown by
the key encoding, rather than reporting "not found" or succeeding. -/
theorem existsKey_storeDelete_issuer_usage_error (c : Currency) (db : DB)
    (delta : LedgerDelta) :
    TrustFrame.existsKey db ⟨c.issuer, c⟩ = .error .usageError
    ∧ TrustFrame.storeDelete delta db ⟨c.issuer, c⟩ = .error .usageError := by
  constructor <;>
    (simp [TrustFrame.existsKey, TrustFrame.storeDelete, getKeyFields]; rfl)

/-- Claim C5: for every valid entity flagged as the issuer pseudo-entity,
`storeAdd` and `storeChange` return without touching storage, without
notifying the journal, and without signalling an error. -/
theorem store_issuer_pseudo_noop (f : TrustFrame) (delta : LedgerDelta) (db : DB)
    (hIss : f.mIsIssuer = true) (hval : f.isValid = true) :
    f.storeAdd delta db = .ok (delta, db)
    ∧ f.storeChange delta db = .ok (delta, db) := by
  constructor <;> simp [TrustFrame.storeAdd, TrustFrame.storeChange, hIss, hval]

/-- Witness for C5 at a concrete valid issuer pseudo-entity. -/
theorem store_issuer_pseudo_noop_witness :
    TrustFrame.storeAdd ⟨⟨7, ⟨CurrencyType.alphaNum, 100, 7⟩, INT64_MAX, INT64_MAX, 1⟩, true⟩ [] []
      = .ok ([], [])
    ∧ TrustFrame.storeChange ⟨⟨7, ⟨CurrencyType.alphaNum, 100, 7⟩, INT64_MAX, INT64_MAX, 1⟩, true⟩ [] []
      = .ok ([], []) :=
  store_issuer_pseudo_noop
    ⟨⟨7, ⟨CurrencyType.alphaNum, 100, 7⟩, INT64_MAX, INT64_MAX, 1⟩, true⟩ [] []
    rfl (by decide)

/-- Counterexample to C2 as stated: deleting the absent key
(holder 1, issuer 7, code 100) from the empty table completes as a silent
success — no consistency error is raised — and still notifies the journal. -/
theorem storeDelete_missing_key_cex :
    TrustFrame.storeDelete [] [] ⟨1, ⟨CurrencyType.alphaNum, 100, 7⟩⟩
      = .ok ([DeltaEvent.deleteEntry ⟨1, ⟨CurrencyType.alphaNum, 100, 7⟩⟩], []) := by
  rfl

/-- Claim C2 (amended): for every key (holder ≠ issuer) with no matching
row, `storeDelete` completes without error — the affected-row count is
never inspected for deletes — leaving the table unchanged and still
notifying the journal. -/
theorem storeDelete_missing_key_silent (key : TrustLineKey) (delta : LedgerDelta) (db : DB)
    (hne : key.accountID ≠ key.currency.issuer)
    (hmiss : ∀ r ∈ db, r.1 ≠ (toBase58Check key.accountID,
      toBase58Check key.currency.issuer, currencyCodeToStr key.currency.currencyCode)) :
    TrustFrame.storeDelete delta db key
      = .ok (delta ++ [DeltaEvent.deleteEntry key], db) := by
  have hk : getKeyFields key
      = .ok (key.accountID, key.currency.issuer, key.currency.currencyCode) := by
    unfold getKeyFields toBase58Check currencyCodeToStr
    exact if_neg hne
  have hfil : db.filter
      (fun r => decide (r.1 ≠ (key.accountID, key.currency.issuer, key.currency.currencyCode)))
      = db := by
    rw [List.filter_eq_self]
    intro r hr
    simpa [toBase58Check, currencyCodeToStr] using hmiss r hr
  unfold TrustFrame.storeDelete
  rw [hk]
  simp only [bind, Except.bind]
  rw [hfil]

/-- Witness for the amended C2 at a concrete absent key. -/
theorem storeDelete_missing_key_silent_witness :
    TrustFrame.storeDelete [] [] ⟨2, ⟨CurrencyType.alphaNum, 100, 7⟩⟩
      = .ok ([] ++ [DeltaEvent.deleteEntry ⟨2, ⟨CurrencyType.alphaNum, 100, 7⟩⟩], []) :=
  storeDelete_missing_key_silent ⟨2, ⟨CurrencyType.alphaNum, 100, 7⟩⟩ [] []
    (by decide) (by intro r hr; exact absurd hr (List.not_mem_nil r))

/-- Claim C10: `setAuthorized b` modifies only the authorized bit:
afterwards `isAuthorized` returns `b`, every other bit of the 32-bit flags
word is unchanged, and balance, limit, currency and holder are unchanged. -/
theorem setAuthorized_only_authorized_bit (f : TrustFrame) (b : Bool)
    (hw : f.mTrustLine.flags < 2 ^ 32) :
    (f.setAuthorized b).isAuthorized = b
    ∧ (∀ i, i ≠ 0 →
        Nat.testBit (f.setAuthorized b).mTrustLine.flags i = Nat.testBit f.mTrustLine.flags i)
    ∧ (f.setAuthorized b).mTrustLine.balance = f.mTrustLine.balance
    ∧ (f.setAuthorized b).mTrustLine.limit = f.mTrustLine.limit
    ∧ (f.setAuthorized b).mTrustLine.currency = f.mTrustLine.currency
    ∧ (f.setAuthorized b).mTrustLine.accountID = f.mTrustLine.accountID := by
  cases b with
  | true =>
    refine ⟨?_, ?_, rfl, rfl, rfl, rfl⟩
    · have h := lor_one_mod_two f.mTrustLine.flags
      simp [TrustFrame.setAuthorized, TrustFrame.isAuthorized, AUTHORIZED_FLAG,
        Nat.and_one_is_mod, h]
    · intro i hi
      simp only [TrustFrame.setAuthorized, AUTHORIZED_FLAG, if_true]
      rw [Nat.testBit_lor, testBit_one_ne_zero hi, Bool.or_false]
  | false =>
    refine ⟨?_, ?_, rfl, rfl, rfl, rfl⟩
    · have h := land_mask_mod_two f.mTrustLine.flags
      simp [TrustFrame.setAuthorized, TrustFrame.isAuthorized, AUTHORIZED_FLAG,
        Nat.and_one_is_mod, h]
    · intro i hi
      simp only [TrustFrame.setAuthorized, AUTHORIZED_FLAG]
      rw [if_neg (by simp), Nat.testBit_land, testBit_clear_mask]
      by_cases h32 : i < 32
      · have hm : (decide (1 ≤ i) && decide (i < 32)) = true := by
          simp [Nat.one_le_iff_ne_zero.mpr hi, h32]
        rw [hm, Bool.and_true]
      · have hfb : Nat.testBit f.mTrustLine.flags i = false :=
          Nat.testBit_eq_false_of_lt
            (lt_of_lt_of_le hw (Nat.pow_le_pow_right (by norm_num) (by omega)))
        simp [hfb]

/-- Witness for C10 at flags word 7 (binary 111), clearing the bit:
`isAuthorized` becomes false while bit 1 keeps its value. -/
theorem setAuthorized_only_authorized_bit_witness :
    (TrustFrame.setAuthorized ⟨⟨1, ⟨CurrencyType.alphaNum, 100, 7⟩, 10, 0, 7⟩, false⟩
        false).isAuthorized = false
    ∧ Nat.testBit (TrustFrame.setAuthorized
        ⟨⟨1, ⟨CurrencyType.alphaNum, 100, 7⟩, 10, 0, 7⟩, false⟩ false).mTrustLine.flags 1
      = Nat.testBit (7 : Nat) 1 :=
  ⟨(setAuthorized_only_authorized_bit
      ⟨⟨1, ⟨CurrencyType.alphaNum, 100, 7⟩, 10, 0, 7⟩, false⟩ false (by norm_num)).1,
   (setAuthorized_only_authorized_bit
      ⟨⟨1, ⟨CurrencyType.alphaNum, 100, 7⟩, 10, 0, 7⟩, false⟩ false (by norm_num)).2.1
      1 (by decide)⟩

/-- Claim C3: for a valid non-issuer entity (int64 fields in range) and
any int64 delta, `addBalance` returns false iff the entity is unauthorized
with a non-zero delta, or the exact mathematical sum `balance + delta`
exceeds the limit, or that sum is negative — the wrapped int64 computation
notwithstanding. -/
theorem addBalance_failure_iff (f : TrustFrame) (delta : Int)
    (hIss : f.mIsIssuer = false)
    (hbal : 0 ≤ f.mTrustLine.balance)
    (hbl : f.mTrustLine.balance ≤ f.mTrustLine.limit)
    (hlim : f.mTrustLine.limit < 2 ^ 63)
    (hd1 : -2 ^ 63 ≤ delta) (hd2 : delta < 2 ^ 63) :
    ((f.addBalance delta).1 = false ↔
      ((f.isAuthorized = false ∧ delta ≠ 0)
        ∨ f.mTrustLine.limit < f.mTrustLine.balance + delta
        ∨ f.mTrustLine.balance + delta < 0)) := by
  unfold TrustFrame.addBalance int64Wrap
  rw [hIss]
  simp only [Bool.false_eq_true, if_false]
  split_ifs with h0 h1 h2 h3
  · subst h0
    refine iff_of_false (by simp) ?_
    rintro (⟨hf, hz⟩ | h | h)
    · exact hz rfl
    · omega
    · omega
  · have ha : f.isAuthorized = false := by simpa using h1
    exact iff_of_true rfl (Or.inl ⟨ha, h0⟩)
  · refine iff_of_true rfl (Or.inr ?_)
    omega
  · refine iff_of_true rfl (Or.inr ?_)
    omega
  · have ha : f.isAuthorized = true := by simpa using h1
    refine iff_of_false (by simp) ?_
    rintro (⟨hf, hz⟩ | h | h)
    · rw [ha] at hf
      exact absurd hf (by simp)
    · omega
    · omega

/-- Witness for C3: an authorized line at balance 200 of limit 1000
rejects a deposit of 900. -/
theorem addBalance_failure_iff_witness :
    ((TrustFrame.addBalance ⟨⟨1, ⟨CurrencyType.alphaNum, 100, 7⟩, 1000, 200, 1⟩, false⟩
        900).1 = false ↔
      ((TrustFrame.isAuthorized ⟨⟨1, ⟨CurrencyType.alphaNum, 100, 7⟩, 1000, 200, 1⟩, false⟩
          = false ∧ (900 : Int) ≠ 0)
        ∨ (1000 : Int) < 200 + 900
        ∨ (200 : Int) + 900 < 0)) :=
  addBalance_failure_iff ⟨⟨1, ⟨CurrencyType.alphaNum, 100, 7⟩, 1000, 200, 1⟩, false⟩ 900
    rfl (by norm_num) (by norm_num) (by norm_num) (by norm_num) (by norm_num)

/-- Claim C4: for a valid non-issuer entity, `addBalance` preserves
`0 ≤ balance ≤ limit`, and whenever it returns false the frame is
completely unchanged. -/
theorem addBalance_preserves_invariant (f : TrustFrame) (delta : Int)
    (hIss : f.mIsIssuer = false)
    (hbal : 0 ≤ f.mTrustLine.balance)
    (hbl : f.mTrustLine.balance ≤ f.mTrustLine.limit) :
    (0 ≤ (f.addBalance delta).2.mTrustLine.balance
      ∧ (f.addBalance delta).2.mTrustLine.balance
        ≤ (f.addBalance delta).2.mTrustLine.limit)
    ∧ ((f.addBalance delta).1 = false → (f.addBalance delta).2 = f) := by
  unfold TrustFrame.addBalance int64Wrap
  rw [hIss]
  simp only [Bool.false_eq_true, if_false]
  split_ifs with h0 h1 h2 h3
  · exact ⟨⟨hbal, hbl⟩, fun _ => rfl⟩
  · exact ⟨⟨hbal, hbl⟩, fun _ => rfl⟩
  · exact ⟨⟨hbal, hbl⟩, fun _ => rfl⟩
  · exact ⟨⟨hbal, hbl⟩, fun _ => rfl⟩
  · refine ⟨⟨?_, ?_⟩, fun h => absurd h (by simp)⟩
    · simp only
      omega
    · simp only
      omega

/-- Witness for C4: an unauthorized line rejects a deposit of 3 and keeps
its state. -/
theorem addBalance_preserves_invariant_witness :
    (0 ≤ (TrustFrame.addBalance ⟨⟨1, ⟨CurrencyType.alphaNum, 100, 7⟩, 10, 5, 0⟩, false⟩
        3).2.mTrustLine.balance
      ∧ (TrustFrame.addBalance ⟨⟨1, ⟨CurrencyType.alphaNum, 100, 7⟩, 10, 5, 0⟩, false⟩
          3).2.mTrustLine.balance
        ≤ (TrustFrame.addBalance ⟨⟨1, ⟨CurrencyType.alphaNum, 100, 7⟩, 10, 5, 0⟩, false⟩
          3).2.mTrustLine.limit)
    ∧ ((TrustFrame.addBalance ⟨⟨1, ⟨CurrencyType.alphaNum, 100, 7⟩, 10, 5, 0⟩, false⟩
        3).1 = false →
      (TrustFrame.addBalance ⟨⟨1, ⟨CurrencyType.alphaNum, 100, 7⟩, 10, 5, 0⟩, false⟩ 3).2
        = ⟨⟨1, ⟨CurrencyType.alphaNum, 100, 7⟩, 10, 5, 0⟩, false⟩) :=
  addBalance_preserves_invariant ⟨⟨1, ⟨CurrencyType.alphaNum, 100, 7⟩, 10, 5, 0⟩, false⟩ 3
    rfl (by norm_num) (by norm_num)

/-- Claim C9: every frame the bulk row-loading path hands over — directly
from `loadLines`, via the by-holder bulk load, or via a storage-backed
point `load` — satisfies `isValid`; a stored row whose frame is invalid
trips the assertion instead of being returned. -/
theorem loadLines_all_valid :
    (∀ rows frames, loadLines rows = .ok frames → ∀ f ∈ frames, f.isValid = true)
    ∧ (∀ rows : List (KeyTriple × Row),
        (∃ p ∈ rows, (rowFrame p.1 p.2).isValid = false) →
        loadLines rows = .error .assertFailed)
    ∧ (∀ acc db frames, TrustFrame.loadLinesFor acc db = .ok frames →
        ∀ f ∈ frames, f.isValid = true)
    ∧ (∀ acc cur retLine db g, acc ≠ cur.issuer →
        TrustFrame.loadTrustLine acc cur retLine db = .ok (true, g) →
        g.isValid = true) := by
  have h1 : ∀ rows frames, loadLines rows = .ok frames → ∀ f ∈ frames, f.isValid = true := by
    intro rows
    induction rows with
    | nil =>
      intro frames h f hf
      simp [loadLines] at h
      subst h
      cases hf
    | cons hd tl ih =>
      intro frames h f hf
      obtain ⟨k, r⟩ := hd
      rw [loadLines] at h
      by_cases hv : (rowFrame k r).isValid = true
      · rw [if_pos hv] at h
        cases htl : loadLines tl with
        | ok fs =>
          rw [htl] at h
          simp [Except.map] at h
          subst h
          rcases List.mem_cons.mp hf with hf | hf
          · exact hf ▸ hv
          · exact ih fs htl f hf
        | error e =>
          rw [htl] at h
          simp [Except.map] at h
      · rw [if_neg hv] at h
        cases h
  have h2 : ∀ rows : List (KeyTriple × Row),
      (∃ p ∈ rows, (rowFrame p.1 p.2).isValid = false) →
      loadLines rows = .error .assertFailed := by
    intro rows
    induction rows with
    | nil =>
      rintro ⟨p, hp, _⟩
      cases hp
    | cons hd tl ih =>
      rintro ⟨p, hp, hpv⟩
      obtain ⟨k, r⟩ := hd
      rw [loadLines]
      rcases List.mem_cons.mp hp with hp | hp
      · rw [if_neg]
        rw [hp] at hpv
        simp [hpv]
      · by_cases hv : (rowFrame k r).isValid = true
        · rw [if_pos hv, ih ⟨p, hp, hpv⟩]
          rfl
        · rw [if_neg hv]
  have h3 : ∀ (rows : List (KeyTriple × Row)) (init g : TrustFrame),
      ((do
        let frames ← loadLines rows
        Except.ok (frames.foldl (fun _ f => (true, f)) (false, init)))
        = Except.ok (true, g)) → g.isValid = true := by
    intro rows init g h
    cases hrows : loadLines rows with
    | error e =>
      rw [hrows] at h
      simp [bind, Except.bind] at h
    | ok frames =>
      rw [hrows] at h
      simp only [bind, Except.bind, Except.ok.injEq] at h
      rcases foldl_overwrite frames (false, init) with hh | hh
      · rw [h] at hh
        simp at hh
      · rw [h] at hh
        exact h1 rows frames hrows g hh
  refine ⟨h1, h2, ?_, ?_⟩
  · intro acc db frames h
    exact h1 _ frames h
  · intro acc cur retLine db g hne h
    unfold TrustFrame.loadTrustLine at h
    rw [if_neg hne] at h
    exact h3 _ retLine g h

/-- Witness for C9: a valid stored row (limit 10, balance 0) is loaded as
a valid frame, while a corrupt row (balance 5 above limit 2) makes the
iteration fail the assertion. -/
theorem loadLines_all_valid_witness :
    (rowFrame (1, 7, 100) ⟨10, 0, 1⟩).isValid = true
    ∧ loadLines [((1, 7, 100), ⟨2, 5, 1⟩)] = .error .assertFailed :=
  ⟨loadLines_all_valid.1 [((1, 7, 100), ⟨10, 0, 1⟩)] [rowFrame (1, 7, 100) ⟨10, 0, 1⟩]
      rfl (rowFrame (1, 7, 100) ⟨10, 0, 1⟩) (List.mem_singleton.mpr rfl),
   loadLines_all_valid.2.1 [((1, 7, 100), ⟨2, 5, 1⟩)]
      ⟨((1, 7, 100), ⟨2, 5, 1⟩), List.mem_singleton.mpr rfl, by decide⟩⟩

/-- Counterexample to C1 as stated: a valid entity with balance 5 is
added; loading its key back returns balance 0, not 5 — the insert never
writes the balance column. -/
theorem storeAdd_loadTrustLine_roundtrip_cex :
    TrustFrame.isValid ⟨⟨1, ⟨CurrencyType.alphaNum, 100, 7⟩, 1000, 5, 1⟩, false⟩ = true
    ∧ TrustFrame.storeAdd ⟨⟨1, ⟨CurrencyType.alphaNum, 100, 7⟩, 1000, 5, 1⟩, false⟩ [] []
        = .ok ([DeltaEvent.addEntry ⟨⟨1, ⟨CurrencyType.alphaNum, 100, 7⟩, 1000, 5, 1⟩, false⟩],
            [((1, 7, 100), ⟨1000, 0, 1⟩)])
    ∧ TrustFrame.loadTrustLine 1 ⟨CurrencyType.alphaNum, 100, 7⟩
        ⟨⟨0, ⟨CurrencyType.alphaNum, 0, 1⟩, 0, 0, 0⟩, false⟩ [((1, 7, 100), ⟨1000, 0, 1⟩)]
        = .ok (true, ⟨⟨1, ⟨CurrencyType.alphaNum, 100, 7⟩, 1000, 0, 1⟩, false⟩)
    ∧ (0 : Int) ≠ 5 := by
  exact ⟨rfl, rfl, rfl, by decide⟩

/-- Claim C1 (amended): for a valid non-issuer entity E whose key is not
yet stored, `storeAdd` inserts a row keyed by E with E's limit and flags
and balance 0, and `loadTrustLine` on E's key then returns a frame equal
to E in limit and flags whose balance is 0 (so equal to E in balance
exactly when E's balance is 0). -/
theorem storeAdd_loadTrustLine_roundtrip (f : TrustFrame) (delta : LedgerDelta) (db : DB)
    (retLine : TrustFrame)
    (hval : f.isValid = true)
    (hIss : f.mIsIssuer = false)
    (hne : f.mTrustLine.accountID ≠ f.mTrustLine.currency.issuer)
    (hfresh : ∀ r ∈ db, r.1 ≠ (f.mTrustLine.accountID, f.mTrustLine.currency.issuer,
        f.mTrustLine.currency.currencyCode)) :
    f.storeAdd delta db
      = .ok (delta ++ [DeltaEvent.addEntry f],
          db ++ [((f.mTrustLine.accountID, f.mTrustLine.currency.issuer,
            f.mTrustLine.currency.currencyCode),
            ⟨f.mTrustLine.limit, 0, f.mTrustLine.flags⟩)])
    ∧ TrustFrame.loadTrustLine f.mTrustLine.accountID f.mTrustLine.currency retLine
        (db ++ [((f.mTrustLine.accountID, f.mTrustLine.currency.issuer,
          f.mTrustLine.currency.currencyCode),
          ⟨f.mTrustLine.limit, 0, f.mTrustLine.flags⟩)])
      = .ok (true, rowFrame (f.mTrustLine.accountID, f.mTrustLine.currency.issuer,
          f.mTrustLine.currency.currencyCode) ⟨f.mTrustLine.limit, 0, f.mTrustLine.flags⟩)
    ∧ (rowFrame (f.mTrustLine.accountID, f.mTrustLine.currency.issuer,
        f.mTrustLine.currency.currencyCode)
        ⟨f.mTrustLine.limit, 0, f.mTrustLine.flags⟩).mTrustLine.limit = f.mTrustLine.limit
    ∧ (rowFrame (f.mTrustLine.accountID, f.mTrustLine.currency.issuer,
        f.mTrustLine.currency.currencyCode)
        ⟨f.mTrustLine.limit, 0, f.mTrustLine.flags⟩).mTrustLine.flags = f.mTrustLine.flags
    ∧ (rowFrame (f.mTrustLine.accountID, f.mTrustLine.currency.issuer,
        f.mTrustLine.currency.currencyCode)
        ⟨f.mTrustLine.limit, 0, f.mTrustLine.flags⟩).mTrustLine.balance = 0 := by
  set k : KeyTriple := (f.mTrustLine.accountID, f.mTrustLine.currency.issuer,
    f.mTrustLine.currency.currencyCode) with hk
  set row : Row := ⟨f.mTrustLine.limit, 0, f.mTrustLine.flags⟩ with hrow
  have hkf : getKeyFields f.getKey = .ok k := by
    unfold getKeyFields TrustFrame.getKey toBase58Check currencyCodeToStr
    exact if_neg hne
  have hany : db.any (fun r => decide (r.1 = k)) = false := by
    rw [List.any_eq_false]
    intro r hr
    simpa using hfresh r hr
  refine ⟨?_, ?_, rfl, rfl, rfl⟩
  · unfold TrustFrame.storeAdd
    rw [hval, hIss]
    simp only [Bool.not_true, Bool.false_eq_true, if_false]
    rw [hkf]
    simp only [bind, Except.bind]
    rw [hany]
    rfl
  · unfold TrustFrame.loadTrustLine
    rw [if_neg hne]
    dsimp only
    have hfil : (db ++ [(k, row)]).filter
        (fun r => decide (r.1 = (toBase58Check f.mTrustLine.accountID,
          toBase58Check f.mTrustLine.currency.issuer,
          currencyCodeToStr f.mTrustLine.currency.currencyCode))) = [(k, row)] := by
      rw [List.filter_append]
      have hl : db.filter (fun r => decide (r.1 = (toBase58Check f.mTrustLine.accountID,
          toBase58Check f.mTrustLine.currency.issuer,
          currencyCodeToStr f.mTrustLine.currency.currencyCode))) = [] := by
        rw [List.filter_eq_nil_iff]
        intro r hr
        simpa [toBase58Check, currencyCodeToStr] using hfresh r hr
      rw [hl]
      simp [toBase58Check, currencyCodeToStr]
    rw [hfil]
    have hgv : (rowFrame k row).isValid = true := by
      have hv := hval
      simp [TrustFrame.isValid] at hv ⊢
      simp [rowFrame, hrow]
      omega
    rw [loadLines]
    rw [if_pos hgv]
    simp [loadLines, bind, Except.bind, Except.map]

/-- Witness for the amended C1: a valid entity with balance 5 and limit
1000 round-trips into a loaded frame with limit 1000, flags 1, balance 0. -/
theorem storeAdd_loadTrustLine_roundtrip_witness :
    TrustFrame.storeAdd ⟨⟨1, ⟨CurrencyType.alphaNum, 100, 7⟩, 1000, 5, 1⟩, false⟩ [] []
      = .ok ([] ++ [DeltaEvent.addEntry ⟨⟨1, ⟨CurrencyType.alphaNum, 100, 7⟩, 1000, 5, 1⟩, false⟩],
          [] ++ [((1, 7, 100), ⟨1000, 0, 1⟩)])
    ∧ TrustFrame.loadTrustLine 1 ⟨CurrencyType.alphaNum, 100, 7⟩
        ⟨⟨0, ⟨CurrencyType.alphaNum, 0, 1⟩, 0, 0, 0⟩, false⟩ ([] ++ [((1, 7, 100), ⟨1000, 0, 1⟩)])
      = .ok (true, rowFrame (1, 7, 100) ⟨1000, 0, 1⟩)
    ∧ (rowFrame (1, 7, 100) ⟨1000, 0, 1⟩).mTrustLine.limit = 1000
    ∧ (rowFrame (1, 7, 100) ⟨1000, 0, 1⟩).mTrustLine.flags = 1
    ∧ (rowFrame (1, 7, 100) ⟨1000, 0, 1⟩).mTrustLine.balance = 0 :=
  storeAdd_loadTrustLine_roundtrip
    ⟨⟨1, ⟨CurrencyType.alphaNum, 100, 7⟩, 1000, 5, 1⟩, false⟩ []
    [] ⟨⟨0, ⟨CurrencyType.alphaNum, 0, 1⟩, 0, 0, 0⟩, false⟩
    (by decide) rfl (by decide) (by intro r hr; exact absurd hr (List.not_mem_nil r))

end Stellar
